import Mathlib

/-!
# Verification of the Simulated OS (processor / main-memory) design

A shallow embedding of the two-process OS simulator: the processor role
(`processor.cc`) with its registers, access control, interrupt and
mode-switch machinery and fetch-decode-execute loop, and the main-memory
role (`memory.cc`) with its 2000-cell address space and pipe-message
handler.  Machine integers are modelled as `Int` (the C++ `int` values
involved stay far from overflow in every property considered here), and
memory as a total function `Int → Int` updated with `Function.update`.
-/

namespace SimOS

/-! ## Constants from `program.h` -/

def MEMORY_SIZE : Int := 2000
def SYS_INDEX : Int := 1000
def INT_INDEX : Int := 1500

/-- `mem_codes` enum: pipe-message discriminators. -/
def READ : Int := 0
def WRITE : Int := 1

/-- `error_codes` enum (in declaration order, starting at 0). -/
def SUCCESS : Int := 0
def CLI_FAILURE : Int := 1
def FORK_FAILURE : Int := 2
def PIPE_FAILURE : Int := 3
def FILE_PARSE_FAILURE : Int := 4
def INVALID_OPCODE : Int := 5
def PROGRAM_PATH_FAILURE : Int := 6
def READ_FAILURE : Int := 7
def WRITE_FAILURE : Int := 8
def INVALID_MEM_ACTION : Int := 9
def MEMORY_OUT_OF_BOUNDS : Int := 10
def KERNEL_MEM_ACCESS_DENIED : Int := 11
def USER_MEM_ACCESS_DENIED : Int := 12
def INVALID_PORT_CALL : Int := 13

/-! ## Access Control (`verifyAccess`, processor.cc lines 197-216)

The source function calls `endProcess` (which exits) on the first failing
check, so the three `if`s behave as a first-match rule chain.  We embed it
as a pure function into a result type; the caller (`readMemory` /
`writeMemory` below) converts a non-`ok` result into the corresponding
fatal exit code. -/

inductive Access where
  | ok : Access
  | outOfBounds : Access
  | kernelDenied : Access
  | userDenied : Access
deriving DecidableEq, Repr

/-- `verifyAccess` from processor.cc: bounds check first, then the
user-mode check against system memory, then the kernel-mode check against
user memory.  `kernelMode` is the processor's mode flag (`true` = kernel). -/
def verifyAccess (address : Int) (kernelMode : Bool) : Access :=
  if address < 0 ∨ address ≥ MEMORY_SIZE then .outOfBounds
  else if address ≥ SYS_INDEX ∧ ¬kernelMode then .kernelDenied
  else if address < SYS_INDEX ∧ kernelMode then .userDenied
  else .ok

/-! ## Memory Store (`signalhandler`, memory.cc lines 219-272)

One wake-up handles exactly one request.  The handler always reads two
ints (action, address) from the inbound pipe; in the in-range WRITE branch
it reads a third (the value).  We model the inbound pipe as a list of
ints, and record in `consumed` how many ints the handler actually read. -/

structure StoreStep where
  /-- Number of ints the handler read from the inbound pipe. -/
  consumed : Nat
  /-- The ints the handler wrote back on the response pipe, in order. -/
  response : List Int
  /-- The memory array after the request is handled. -/
  mem : Int → Int

/-- `signalhandler` from memory.cc, acting on inbound pipe contents
`inbox` over memory `mem`.  Mirrors the source branch for branch:
the action and address are always read; the value is read only in the
in-range WRITE branch. -/
def signalhandler (inbox : List Int) (mem : Int → Int) : StoreStep :=
  let action := inbox.getD 0 0
  let address := inbox.getD 1 0
  if action = READ then
    if 0 ≤ address ∧ address < MEMORY_SIZE then
      ⟨2, [SUCCESS, mem address], mem⟩
    else
      ⟨2, [READ_FAILURE], mem⟩
  else if action = WRITE then
    if 0 ≤ address ∧ address < MEMORY_SIZE then
      let value := inbox.getD 2 0
      ⟨3, [SUCCESS], Function.update mem address value⟩
    else
      ⟨2, [WRITE_FAILURE], mem⟩
  else
    ⟨2, [INVALID_MEM_ACTION], mem⟩

/-! ### Basic facts about access control -/

theorem verifyAccess_ok_bounds (a : Int) (km : Bool)
    (h : verifyAccess a km = .ok) : 0 ≤ a ∧ a < MEMORY_SIZE := by
  unfold verifyAccess at h
  split_ifs at h with h1
  constructor <;> omega

/-- C1: `verifyAccess` evaluates its rules in order (out-of-bounds, then
kernel-region-in-user-mode, then user-region-in-kernel-mode) and returns
the first match; each outcome is characterized exactly, and for every
address in `[0, 1000)` a kernel-mode access yields `userDenied`. -/
theorem verifyAccess_rule_chain (a : Int) (km : Bool) :
    (verifyAccess a km = .outOfBounds ↔ (a < 0 ∨ 2000 ≤ a))
    ∧ (verifyAccess a km = .kernelDenied ↔ (0 ≤ a ∧ a < 2000 ∧ 1000 ≤ a ∧ km = false))
    ∧ (verifyAccess a km = .userDenied ↔ (0 ≤ a ∧ a < 1000 ∧ km = true))
    ∧ (verifyAccess a km = .ok ↔
        ((0 ≤ a ∧ a < 1000 ∧ km = false) ∨ (1000 ≤ a ∧ a < 2000 ∧ km = true)))
    ∧ (0 ≤ a → a < 1000 → km = true → verifyAccess a km = .userDenied) := by
  unfold verifyAccess MEMORY_SIZE SYS_INDEX
  cases km <;> split_ifs <;> simp_all <;> omega

/-- Witness for C1: address 500 in kernel mode is `userDenied`. -/
theorem verifyAccess_rule_chain_witness :
    (0 ≤ (500 : Int)) ∧ ((500 : Int) < 1000) ∧
    verifyAccess 500 true = .userDenied :=
  ⟨by decide, by decide,
    (verifyAccess_rule_chain 500 true).2.2.2.2 (by decide) (by decide) rfl⟩

/-! ## CLI timer validation (`main`, main.cc lines 66-73)

The command-line check on the timer argument is
`if (stoi(argv[2]) < 0) throw;` --- the run is rejected exactly when the
parsed timer value is negative. -/

/-- The timer-argument acceptance test from main.cc: the parsed value `t`
is accepted iff `t < 0` fails. -/
def timerArgAccepted (t : Int) : Bool := !(t < 0)

/-- C2: the CLI check accepts the timer value `0` (its guard is
`stoi(argv[2]) < 0`), while rejecting `-1`; so a run can start with
`interrupt_timer = 0`, and `checkInterrupt` then evaluates
`instruction_counter % 0` --- contradicting the claim that every
non-positive timer is rejected before execution begins. -/
theorem timerArg_zero_accepted :
    timerArgAccepted 0 = true ∧ timerArgAccepted (-1) = false := by
  constructor <;> rfl

/-! ## Memory Store theorems -/

/-- C5: field consumption by the Memory Store.  A READ request consumes
two ints whether it succeeds or fails, and an in-range WRITE consumes
three; but an out-of-range WRITE responds `WRITE_FAILURE` after consuming
only two ints, leaving the value field unread on the pipe --- contradicting
the contract that all three WRITE fields are read in every case. -/
theorem store_write_oob_consumes_two :
    (signalhandler [WRITE, 2000, 42] (fun _ => 0)).consumed = 2
    ∧ (signalhandler [WRITE, 5, 42] (fun _ => 0)).consumed = 3
    ∧ (signalhandler [READ, 5] (fun _ => 0)).consumed = 2
    ∧ (signalhandler [READ, 2000] (fun _ => 0)).consumed = 2 :=
  ⟨rfl, rfl, rfl, rfl⟩

theorem signalhandler_read_inrange (a : Int) (mem : Int → Int)
    (h0 : 0 ≤ a) (h2 : a < 2000) :
    (signalhandler [READ, a] mem).response = [SUCCESS, mem a] := by
  have h1 : 0 ≤ a ∧ a < 2000 := ⟨h0, h2⟩
  simp [signalhandler, READ, WRITE, MEMORY_SIZE, h1]

theorem signalhandler_write_inrange (a v : Int) (mem : Int → Int)
    (h0 : 0 ≤ a) (h2 : a < 2000) :
    (signalhandler [WRITE, a, v] mem).response = [SUCCESS] := by
  have h1 : 0 ≤ a ∧ a < 2000 := ⟨h0, h2⟩
  simp [signalhandler, READ, WRITE, MEMORY_SIZE, h1]

/-- C6: the Memory Store's independent bounds check.  For any address
outside `[0, 2000)`, a READ yields response `[READ_FAILURE]` (no value
field) and a WRITE yields `[WRITE_FAILURE]` leaving every memory cell
unchanged; for any address inside `[0, 2000)` both requests answer
SUCCESS (the store takes no mode input at all). -/
theorem store_bounds_check (a v : Int) (mem : Int → Int) :
    ((a < 0 ∨ 2000 ≤ a) →
      (signalhandler [READ, a] mem).response = [READ_FAILURE]
      ∧ (signalhandler [WRITE, a, v] mem).response = [WRITE_FAILURE]
      ∧ ∀ c, (signalhandler [WRITE, a, v] mem).mem c = mem c)
    ∧ (0 ≤ a → a < 2000 →
      (signalhandler [READ, a] mem).response = [SUCCESS, mem a]
      ∧ (signalhandler [WRITE, a, v] mem).response = [SUCCESS]) := by
  unfold signalhandler READ WRITE MEMORY_SIZE
  constructor
  · intro hout
    have h1 : ¬(0 ≤ a ∧ a < 2000) := by omega
    simp [h1]
  · intro h0 h2
    exact ⟨signalhandler_read_inrange a mem h0 h2,
      signalhandler_write_inrange a v mem h0 h2⟩

/-- Witness for C6: address 2000 fails both ways, address 7 succeeds. -/
theorem store_bounds_check_witness :
    ((2000 : Int) < 0 ∨ (2000 : Int) ≤ 2000) ∧
    ((signalhandler [READ, 2000] (fun _ => 9)).response = [READ_FAILURE]
      ∧ (signalhandler [WRITE, 2000, 42] (fun _ => 9)).response = [WRITE_FAILURE]
      ∧ ∀ c, (signalhandler [WRITE, 2000, 42] (fun _ => 9)).mem c = (fun _ => (9 : Int)) c) :=
  ⟨Or.inr (by decide),
    (store_bounds_check 2000 42 (fun _ => 9)).1 (Or.inr (by decide))⟩

/-- C10: any address that passes the processor-side access check is in
range, and the Memory Store answers it with SUCCESS --- its failure
branches are unreachable for requests the processor actually sends
(`readMemory`/`writeMemory` write the request bytes only after
`verifyAccess` returns without killing the machine). -/
theorem processor_requests_never_fail (a v : Int) (km : Bool) (mem : Int → Int)
    (h : verifyAccess a km = .ok) :
    (0 ≤ a ∧ a < 2000)
    ∧ (signalhandler [READ, a] mem).response = [SUCCESS, mem a]
    ∧ (signalhandler [WRITE, a, v] mem).response = [SUCCESS] := by
  have hb := verifyAccess_ok_bounds a km h
  unfold MEMORY_SIZE at hb
  exact ⟨hb, signalhandler_read_inrange a mem hb.1 hb.2,
    signalhandler_write_inrange a v mem hb.1 hb.2⟩

/-- Witness for C10: a user-mode access to address 10. -/
theorem processor_requests_never_fail_witness :
    verifyAccess 10 false = .ok ∧
    ((0 ≤ (10 : Int) ∧ (10 : Int) < 2000)
      ∧ (signalhandler [READ, 10] (fun _ => 3)).response = [SUCCESS, 3]
      ∧ (signalhandler [WRITE, 10, 4] (fun _ => 3)).response = [SUCCESS]) :=
  ⟨by decide, processor_requests_never_fail 10 4 false (fun _ => 3) (by decide)⟩

/-! ## Processor state

The processor's globals from processor.cc: the six registers, the two
shadow stack pointers, the timer, the instruction counter and the two
mode flags, together with the Memory Store's array (reachable only
through the request channel, embedded here by composing the processor
stubs with `signalhandler`).  `output` collects what `PUT` prints;
`rands`/`randIdx` model the `rand()` stream consumed by `GET`. -/

/-- One visible output event of the `PUT` instruction: the accumulator
printed as a number (port 1) or as a character (port 2). -/
inductive OutEvent where
  | num : Int → OutEvent
  | ch : Int → OutEvent
deriving DecidableEq, Repr

/-- A terminated machine: the exit code passed to `endProcess` plus
everything printed before the exit. -/
structure Exit where
  code : Int
  output : List OutEvent
deriving DecidableEq, Repr

structure Machine where
  pc : Int
  ir : Int
  ac : Int
  x : Int
  y : Int
  sp : Int
  inactive_sys_stack : Int
  inactive_proc_stack : Int
  interrupt_timer : Int
  instruction_counter : Int
  interruptEnabledFlag : Bool
  kernelMode : Bool
  mem : Int → Int
  output : List OutEvent
  rands : Nat → Int
  randIdx : Nat

/-- The state `run_processor` (processor.cc lines 92-118) sets up before
entering the execution loop: `PC = 0`, the other registers are
zero-initialized globals, `SP = inactive_proc_stack = SYS_INDEX`,
`inactive_sys_stack = MEMORY_SIZE`, counter 0, interrupts enabled, user
mode. -/
def initMachine (mem : Int → Int) (timer : Int) (rands : Nat → Int) : Machine where
  pc := 0
  ir := 0
  ac := 0
  x := 0
  y := 0
  sp := SYS_INDEX
  inactive_sys_stack := MEMORY_SIZE
  inactive_proc_stack := SYS_INDEX
  interrupt_timer := timer
  instruction_counter := 0
  interruptEnabledFlag := true
  kernelMode := false
  mem := mem
  output := []
  rands := rands
  randIdx := 0

/-- `endProcess` (processor.cc lines 343-373): kill the Memory Store and
exit with the given code.  In the embedding this terminates the run,
carrying the output printed so far. -/
def endProcess (exitCode : Int) (s : Machine) : Except Exit Machine :=
  .error ⟨exitCode, s.output⟩

/-- `readMemory` (processor.cc lines 223-247): verify access (fatal on
any violation, before any request bytes are sent), then send
`[READ, address]` over the channel, then read the status int (fatal if
not SUCCESS) and the value int. -/
def readMemory (address : Int) (s : Machine) : Except Exit (Int × Machine) :=
  match verifyAccess address s.kernelMode with
  | .outOfBounds => .error ⟨MEMORY_OUT_OF_BOUNDS, s.output⟩
  | .kernelDenied => .error ⟨KERNEL_MEM_ACCESS_DENIED, s.output⟩
  | .userDenied => .error ⟨USER_MEM_ACCESS_DENIED, s.output⟩
  | .ok =>
    let step := signalhandler [READ, address] s.mem
    let status := step.response.getD 0 0
    if status = SUCCESS then .ok (step.response.getD 1 0, { s with mem := step.mem })
    else .error ⟨status, s.output⟩

/-- `writeMemory` (processor.cc lines 255-275): verify access, send
`[WRITE, address, value]`, then read the status int (fatal if not
SUCCESS). -/
def writeMemory (address value : Int) (s : Machine) : Except Exit Machine :=
  match verifyAccess address s.kernelMode with
  | .outOfBounds => .error ⟨MEMORY_OUT_OF_BOUNDS, s.output⟩
  | .kernelDenied => .error ⟨KERNEL_MEM_ACCESS_DENIED, s.output⟩
  | .userDenied => .error ⟨USER_MEM_ACCESS_DENIED, s.output⟩
  | .ok =>
    let step := signalhandler [WRITE, address, value] s.mem
    let status := step.response.getD 0 0
    if status = SUCCESS then .ok { s with mem := step.mem }
    else .error ⟨status, s.output⟩

/-- `pushStack` (processor.cc lines 142-145): pre-decrement SP, write the
value at the new SP. -/
def pushStack (value : Int) (s : Machine) : Except Exit Machine :=
  writeMemory (s.sp - 1) value { s with sp := s.sp - 1 }

/-- `popStack` (processor.cc lines 152-155): read at SP, post-increment
SP. -/
def popStack (s : Machine) : Except Exit (Int × Machine) := do
  let (v, s1) ← readMemory s.sp s
  pure (v, { s1 with sp := s1.sp + 1 })

/-- `pushRegistersOnStack` (processor.cc lines 160-171): the loop
`for i = 1 .. REGCOUNT-1: writeMemory(SP - i, registers[i-1])` unrolled
over the register order PC, IR, AC, X, Y (REGCOUNT = 6, SP is register
5), then `SP -= REGCOUNT - 1`. -/
def pushRegistersOnStack (s : Machine) : Except Exit Machine := do
  let s1 ← writeMemory (s.sp - 1) s.pc s
  let s2 ← writeMemory (s1.sp - 2) s1.ir s1
  let s3 ← writeMemory (s2.sp - 3) s2.ac s2
  let s4 ← writeMemory (s3.sp - 4) s3.x s3
  let s5 ← writeMemory (s4.sp - 5) s4.y s4
  pure { s5 with sp := s5.sp - 5 }

/-- `popRegistersOnStack` (processor.cc lines 176-187): the loop
`for i = 1 .. REGCOUNT-1: registers[i-1] = readMemory(SP + REGCOUNT-1-i)`
unrolled (reads at SP+4 .. SP+0 into PC, IR, AC, X, Y), then
`SP += REGCOUNT - 1`. -/
def popRegistersOnStack (s : Machine) : Except Exit Machine := do
  let (v0, t0) ← readMemory (s.sp + 4) s
  let t0 := { t0 with pc := v0 }
  let (v1, t1) ← readMemory (t0.sp + 3) t0
  let t1 := { t1 with ir := v1 }
  let (v2, t2) ← readMemory (t1.sp + 2) t1
  let t2 := { t2 with ac := v2 }
  let (v3, t3) ← readMemory (t2.sp + 1) t2
  let t3 := { t3 with x := v3 }
  let (v4, t4) ← readMemory (t3.sp + 0) t3
  let t4 := { t4 with y := v4 }
  pure { t4 with sp := t4.sp + 5 }

/-- `syscall` (processor.cc lines 295-320).  Note the source order: the
mode flag and the interrupt-enabled flag are toggled first, then the
stack pointers are swapped, then the register frame is pushed (its five
stores therefore run with `kernelMode = true`), and finally `PC` is set
to the handler address.  In kernel mode, or with interrupts disabled,
the call is silently dropped. -/
def syscall (address : Int) (s : Machine) : Except Exit Machine :=
  if s.interruptEnabledFlag then
    if !s.kernelMode then do
      let s1 := { s with kernelMode := true, interruptEnabledFlag := false }
      let s2 := { s1 with inactive_proc_stack := s1.sp, sp := s1.inactive_sys_stack }
      let s3 ← pushRegistersOnStack s2
      pure { s3 with pc := address }
    else pure s
  else pure s

/-- `return_syscall` (processor.cc lines 325-335): pop the register
frame (still in kernel mode), swap the stack pointers back, then
re-enable interrupts and return to user mode. -/
def return_syscall (s : Machine) : Except Exit Machine := do
  let s1 ← popRegistersOnStack s
  let s2 := { s1 with inactive_sys_stack := s1.sp, sp := s1.inactive_proc_stack }
  pure { s2 with interruptEnabledFlag := true, kernelMode := false }

/-- `checkInterrupt` (processor.cc lines 281-285): fire the timer
interrupt (handler `SYS_INDEX = 1000`) whenever the instruction counter
is divisible by the timer. -/
def checkInterrupt (s : Machine) : Except Exit Machine :=
  if s.instruction_counter % s.interrupt_timer = 0 then syscall SYS_INDEX s
  else pure s

/-- `fetchInstruction` (processor.cc lines 379-382): `IR = mem[PC]`. -/
def fetchInstruction (s : Machine) : Except Exit Machine := do
  let (v, s1) ← readMemory s.pc s
  pure { s1 with ir := v }

/-! ## Instruction set (`enum instruction`, program.h lines 81-114)

The `instruction` enum starts at `LOAD_VAL = 1` and runs contiguously to
`SYSRETURN = 30`, with `END = 50`.  `decode` maps the numeric IR value to
the enum case `executeInstruction`'s switch dispatches on; any other
value falls to the `default:` branch (`INVALID_OPCODE`). -/

inductive Instr where
  | LOAD_VAL | LOAD_ADDR | LOAD_IND_ADDR | LOAD_IDX_X_ADDR | LOAD_IDX_Y_ADDR
  | LOAD_SPX | STORE | GET | PUT | ADDX | ADDY | SUBX | SUBY
  | COPY_TO_X | COPY_FR_X | COPY_TO_Y | COPY_FR_Y | COPY_TO_SP | COPY_FR_SP
  | JUMP | JUMP_IF_EQ | JUMP_IF_NEQ | JUMP_RETURN | RETURN | INCX | DECX
  | PUSH | POP | SYSCALL | SYSRETURN | END | INVALID
deriving DecidableEq, Repr

def decode (ir : Int) : Instr :=
  if ir = 1 then .LOAD_VAL
  else if ir = 2 then .LOAD_ADDR
  else if ir = 3 then .LOAD_IND_ADDR
  else if ir = 4 then .LOAD_IDX_X_ADDR
  else if ir = 5 then .LOAD_IDX_Y_ADDR
  else if ir = 6 then .LOAD_SPX
  else if ir = 7 then .STORE
  else if ir = 8 then .GET
  else if ir = 9 then .PUT
  else if ir = 10 then .ADDX
  else if ir = 11 then .ADDY
  else if ir = 12 then .SUBX
  else if ir = 13 then .SUBY
  else if ir = 14 then .COPY_TO_X
  else if ir = 15 then .COPY_FR_X
  else if ir = 16 then .COPY_TO_Y
  else if ir = 17 then .COPY_FR_Y
  else if ir = 18 then .COPY_TO_SP
  else if ir = 19 then .COPY_FR_SP
  else if ir = 20 then .JUMP
  else if ir = 21 then .JUMP_IF_EQ
  else if ir = 22 then .JUMP_IF_NEQ
  else if ir = 23 then .JUMP_RETURN
  else if ir = 24 then .RETURN
  else if ir = 25 then .INCX
  else if ir = 26 then .DECX
  else if ir = 27 then .PUSH
  else if ir = 28 then .POP
  else if ir = 29 then .SYSCALL
  else if ir = 30 then .SYSRETURN
  else if ir = 50 then .END
  else .INVALID

/-- Fetch one immediate operand: `readMemory(registers[PC]++)`. -/
def fetchOperand (s : Machine) : Except Exit (Int × Machine) := do
  let (v, s1) ← readMemory s.pc s
  pure (v, { s1 with pc := s1.pc + 1 })

/-- `executeInstruction` (processor.cc lines 388-546): the decode-execute
switch on the IR register. -/
def executeInstruction (s : Machine) : Except Exit Machine :=
  match decode s.ir with
  | .LOAD_VAL => do
      let (v, s1) ← fetchOperand s
      pure { s1 with ac := v }
  | .LOAD_ADDR => do
      let (a, s1) ← fetchOperand s
      let (v, s2) ← readMemory a s1
      pure { s2 with ac := v }
  | .LOAD_IND_ADDR => do
      let (a, s1) ← fetchOperand s
      let (b, s2) ← readMemory a s1
      let (v, s3) ← readMemory b s2
      pure { s3 with ac := v }
  | .LOAD_IDX_X_ADDR => do
      let (a, s1) ← fetchOperand s
      let (v, s2) ← readMemory (a + s1.x) s1
      pure { s2 with ac := v }
  | .LOAD_IDX_Y_ADDR => do
      let (a, s1) ← fetchOperand s
      let (v, s2) ← readMemory (a + s1.y) s1
      pure { s2 with ac := v }
  | .LOAD_SPX => do
      let (v, s1) ← readMemory (s.sp + s.x) s
      pure { s1 with ac := v }
  | .STORE => do
      let (a, s1) ← fetchOperand s
      writeMemory a s1.ac s1
  | .GET =>
      pure { s with ac := s.rands s.randIdx % 100 + 1, randIdx := s.randIdx + 1 }
  | .PUT => do
      let (port, s1) ← fetchOperand s
      if port = 1 then pure { s1 with output := s1.output ++ [.num s1.ac] }
      else if port = 2 then pure { s1 with output := s1.output ++ [.ch s1.ac] }
      else endProcess INVALID_PORT_CALL s1
  | .ADDX => pure { s with ac := s.ac + s.x }
  | .ADDY => pure { s with ac := s.ac + s.y }
  | .SUBX => pure { s with ac := s.ac - s.x }
  | .SUBY => pure { s with ac := s.ac - s.y }
  | .COPY_TO_X => pure { s with x := s.ac }
  | .COPY_FR_X => pure { s with ac := s.x }
  | .COPY_TO_Y => pure { s with y := s.ac }
  | .COPY_FR_Y => pure { s with ac := s.y }
  | .COPY_TO_SP => pure { s with sp := s.ac }
  | .COPY_FR_SP => pure { s with ac := s.sp }
  | .JUMP => do
      let (t, s1) ← readMemory s.pc s
      pure { s1 with pc := t }
  | .JUMP_IF_EQ => do
      let (t, s1) ← fetchOperand s
      if s1.ac = 0 then pure { s1 with pc := t } else pure s1
  | .JUMP_IF_NEQ => do
      let (t, s1) ← fetchOperand s
      if s1.ac ≠ 0 then pure { s1 with pc := t } else pure s1
  | .JUMP_RETURN => do
      let s1 ← pushStack (s.pc + 1) s
      let (t, s2) ← readMemory s1.pc s1
      pure { s2 with pc := t }
  | .RETURN => do
      let (t, s1) ← popStack s
      pure { s1 with pc := t }
  | .INCX => pure { s with x := s.x + 1 }
  | .DECX => pure { s with x := s.x - 1 }
  | .PUSH => pushStack s.ac s
  | .POP => do
      let (v, s1) ← popStack s
      pure { s1 with ac := v }
  | .SYSCALL => syscall INT_INDEX s
  | .SYSRETURN => return_syscall s
  | .END => endProcess SUCCESS s
  | .INVALID => endProcess INVALID_OPCODE s

/-- One iteration of `run_execution_cycle` (processor.cc lines 125-135):
fetch, `PC++`, execute, `instruction_counter++`, then the timer check. -/
def cycleStep (s : Machine) : Except Exit Machine := do
  let s1 ← fetchInstruction s
  let s2 := { s1 with pc := s1.pc + 1 }
  let s3 ← executeInstruction s2
  let s4 := { s3 with instruction_counter := s3.instruction_counter + 1 }
  checkInterrupt s4

/-- `run_execution_cycle`'s `while(true)` loop, cut off after `fuel`
iterations (`.ok` means the machine is still running; `.error` carries
the `endProcess` exit). -/
def run_execution_cycle (fuel : Nat) (s : Machine) : Except Exit Machine :=
  match fuel with
  | 0 => .ok s
  | n + 1 => (cycleStep s).bind (run_execution_cycle n)

/-! ## Helper lemmas about the embedding -/

theorem bind_ok_iff {α β : Type} (x : Except Exit α) (f : α → Except Exit β) (b : β) :
    (x >>= f) = .ok b ↔ ∃ a, x = .ok a ∧ f a = .ok b := by
  cases x <;> simp [Bind.bind, Except.bind]

theorem pure_ok {α : Type} (a : α) : (pure a : Except Exit α) = .ok a := rfl

theorem ok_bind {α β : Type} (a : α) (f : α → Except Exit β) :
    (Except.ok a >>= f) = f a := rfl

theorem error_bind {α β : Type} (e : Exit) (f : α → Except Exit β) :
    ((Except.error e : Except Exit α) >>= f) = .error e := rfl

theorem signalhandler_read_inrange_eq (a : Int) (mem : Int → Int)
    (h0 : 0 ≤ a) (h2 : a < 2000) :
    signalhandler [READ, a] mem = ⟨2, [SUCCESS, mem a], mem⟩ := by
  have h1 : 0 ≤ a ∧ a < 2000 := ⟨h0, h2⟩
  simp [signalhandler, READ, WRITE, MEMORY_SIZE, h1]

theorem signalhandler_write_inrange_eq (a v : Int) (mem : Int → Int)
    (h0 : 0 ≤ a) (h2 : a < 2000) :
    signalhandler [WRITE, a, v] mem = ⟨3, [SUCCESS], Function.update mem a v⟩ := by
  have h1 : 0 ≤ a ∧ a < 2000 := ⟨h0, h2⟩
  simp [signalhandler, READ, WRITE, MEMORY_SIZE, h1]

/-- A read whose access check passes returns the memory value and leaves
the machine unchanged. -/
theorem readMemory_ok_of_verify {a : Int} {s : Machine}
    (h : verifyAccess a s.kernelMode = .ok) :
    readMemory a s = .ok (s.mem a, s) := by
  have hb := verifyAccess_ok_bounds a s.kernelMode h
  unfold MEMORY_SIZE at hb
  unfold readMemory
  rw [h, signalhandler_read_inrange_eq a s.mem hb.1 hb.2]
  simp [SUCCESS]

/-- A write whose access check passes updates exactly the addressed cell. -/
theorem writeMemory_ok_of_verify {a : Int} {s : Machine} (v : Int)
    (h : verifyAccess a s.kernelMode = .ok) :
    writeMemory a v s = .ok { s with mem := Function.update s.mem a v } := by
  have hb := verifyAccess_ok_bounds a s.kernelMode h
  unfold MEMORY_SIZE at hb
  unfold writeMemory
  rw [h, signalhandler_write_inrange_eq a v s.mem hb.1 hb.2]
  simp [SUCCESS]

theorem readMemory_ok_elim {a : Int} {s : Machine} {v : Int} {t : Machine}
    (h : readMemory a s = .ok (v, t)) :
    verifyAccess a s.kernelMode = .ok ∧ v = s.mem a ∧ t = s := by
  rcases hva : verifyAccess a s.kernelMode
  case ok =>
    rw [readMemory_ok_of_verify hva] at h
    simp only [Except.ok.injEq, Prod.mk.injEq] at h
    exact ⟨rfl, h.1.symm, h.2.symm⟩
  all_goals (unfold readMemory at h ; rw [hva] at h ; simp at h)

theorem writeMemory_ok_elim {a v : Int} {s t : Machine}
    (h : writeMemory a v s = .ok t) :
    verifyAccess a s.kernelMode = .ok ∧ t = { s with mem := Function.update s.mem a v } := by
  rcases hva : verifyAccess a s.kernelMode
  case ok =>
    rw [writeMemory_ok_of_verify v hva] at h
    simp only [Except.ok.injEq] at h
    exact ⟨rfl, h.symm⟩
  all_goals (unfold writeMemory at h ; rw [hva] at h ; simp at h)

/-- The fields that the interrupt machinery cares about: the timer, the
instruction counter and the two mode flags agree. -/
def CoreEq (s t : Machine) : Prop :=
  t.interrupt_timer = s.interrupt_timer
  ∧ t.instruction_counter = s.instruction_counter
  ∧ t.kernelMode = s.kernelMode
  ∧ t.interruptEnabledFlag = s.interruptEnabledFlag

theorem CoreEq.refl (s : Machine) : CoreEq s s := ⟨rfl, rfl, rfl, rfl⟩

theorem CoreEq.trans {s t u : Machine} (h1 : CoreEq s t) (h2 : CoreEq t u) :
    CoreEq s u := by
  obtain ⟨a1, b1, c1, d1⟩ := h1
  obtain ⟨a2, b2, c2, d2⟩ := h2
  exact ⟨a2.trans a1, b2.trans b1, c2.trans c1, d2.trans d1⟩

theorem readMemory_core {a : Int} {s : Machine} {v : Int} {t : Machine}
    (h : readMemory a s = .ok (v, t)) : CoreEq s t := by
  obtain ⟨-, -, ht⟩ := readMemory_ok_elim h
  rw [ht]
  exact CoreEq.refl s

theorem writeMemory_core {a v : Int} {s t : Machine}
    (h : writeMemory a v s = .ok t) : CoreEq s t := by
  obtain ⟨-, ht⟩ := writeMemory_ok_elim h
  rw [ht]
  exact ⟨rfl, rfl, rfl, rfl⟩

theorem fetchOperand_core {s : Machine} {v : Int} {t : Machine}
    (h : fetchOperand s = .ok (v, t)) : CoreEq s t := by
  unfold fetchOperand at h
  rw [bind_ok_iff] at h
  obtain ⟨⟨w, s1⟩, hr, h⟩ := h
  simp only [pure_ok, Except.ok.injEq, Prod.mk.injEq] at h
  rw [← h.2]
  exact (readMemory_core hr).trans ⟨rfl, rfl, rfl, rfl⟩

theorem pushStack_core {v : Int} {s t : Machine}
    (h : pushStack v s = .ok t) : CoreEq s t := by
  unfold pushStack at h
  exact (writeMemory_core h : CoreEq { s with sp := s.sp - 1 } t).trans
    ⟨rfl, rfl, rfl, rfl⟩ |>.trans (CoreEq.refl t) |>.trans (CoreEq.refl t)

theorem popStack_core {s : Machine} {v : Int} {t : Machine}
    (h : popStack s = .ok (v, t)) : CoreEq s t := by
  unfold popStack at h
  rw [bind_ok_iff] at h
  obtain ⟨⟨w, s1⟩, hr, h⟩ := h
  simp only [pure_ok, Except.ok.injEq, Prod.mk.injEq] at h
  rw [← h.2]
  exact (readMemory_core hr).trans ⟨rfl, rfl, rfl, rfl⟩

theorem pushRegistersOnStack_core {s t : Machine}
    (h : pushRegistersOnStack s = .ok t) : CoreEq s t := by
  unfold pushRegistersOnStack at h
  simp only [bind_ok_iff, pure_ok] at h
  obtain ⟨s1, hw1, s2, hw2, s3, hw3, s4, hw4, s5, hw5, h⟩ := h
  simp only [Except.ok.injEq] at h
  rw [← h]
  exact (((((writeMemory_core hw1).trans (writeMemory_core hw2)).trans
    (writeMemory_core hw3)).trans (writeMemory_core hw4)).trans
    (writeMemory_core hw5)).trans ⟨rfl, rfl, rfl, rfl⟩

theorem popRegistersOnStack_core {s t : Machine}
    (h : popRegistersOnStack s = .ok t) : CoreEq s t := by
  unfold popRegistersOnStack at h
  simp only [bind_ok_iff, pure_ok] at h
  obtain ⟨⟨v0, t0⟩, hr0, ⟨v1, t1⟩, hr1, ⟨v2, t2⟩, hr2, ⟨v3, t3⟩, hr3, ⟨v4, t4⟩, hr4, h⟩ := h
  simp only [Except.ok.injEq] at h
  rw [← h]
  exact (((((readMemory_core hr0).trans
    ((readMemory_core hr1).trans (CoreEq.refl t1))).trans
    ((readMemory_core hr2).trans (CoreEq.refl t2))).trans
    ((readMemory_core hr3).trans (CoreEq.refl t3))).trans
    ((readMemory_core hr4).trans (CoreEq.refl t4))).trans ⟨rfl, rfl, rfl, rfl⟩

theorem fetchInstruction_core {s t : Machine}
    (h : fetchInstruction s = .ok t) : CoreEq s t := by
  unfold fetchInstruction at h
  rw [bind_ok_iff] at h
  obtain ⟨⟨w, s1⟩, hr, h⟩ := h
  simp only [pure_ok, Except.ok.injEq] at h
  rw [← h]
  exact (readMemory_core hr).trans ⟨rfl, rfl, rfl, rfl⟩

theorem endProcess_not_ok {c : Int} {s t : Machine} (h : endProcess c s = .ok t) : False := by
  simp [endProcess] at h

/-- In kernel mode `syscall` is a silent no-op (the recursive-interrupt
branch of processor.cc). -/
theorem syscall_drop_kernel {a : Int} {s : Machine} (hk : s.kernelMode = true) :
    syscall a s = .ok s := by
  unfold syscall
  cases hif : s.interruptEnabledFlag <;> simp [hk, hif, pure_ok]

/-- With interrupts disabled `syscall` is a silent no-op. -/
theorem syscall_drop_disabled {a : Int} {s : Machine}
    (he : s.interruptEnabledFlag = false) : syscall a s = .ok s := by
  unfold syscall
  simp [he, pure_ok]

/-- In state (User, enabled), `syscall` equals: toggle both flags, swap
the stack pointers, push the register frame (in kernel mode), then set
`PC` to the handler address. -/
theorem syscall_fires_eq {a : Int} {s : Machine}
    (he : s.interruptEnabledFlag = true) (hk : s.kernelMode = false) :
    syscall a s =
      (pushRegistersOnStack
        { s with kernelMode := true, interruptEnabledFlag := false,
                 inactive_proc_stack := s.sp, sp := s.inactive_sys_stack }).map
        (fun t => { t with pc := a }) := by
  unfold syscall
  rw [he, hk]
  simp only [Bool.not_false, if_true]
  cases hp : pushRegistersOnStack
      { s with kernelMode := true, interruptEnabledFlag := false,
               inactive_proc_stack := s.sp, sp := s.inactive_sys_stack } <;>
    simp [hp, Except.map, ok_bind, error_bind, pure_ok]

/-- Any successful `syscall` either left the machine untouched or entered
kernel mode with interrupts disabled and `PC` at the handler, preserving
the timer and the instruction counter. -/
theorem syscall_ok_flags {a : Int} {s t : Machine} (h : syscall a s = .ok t) :
    t = s ∨ (t.kernelMode = true ∧ t.interruptEnabledFlag = false
      ∧ t.interrupt_timer = s.interrupt_timer
      ∧ t.instruction_counter = s.instruction_counter ∧ t.pc = a) := by
  unfold syscall at h
  cases hif : s.interruptEnabledFlag <;> rw [hif] at h
  · simp only [Bool.false_eq_true, if_false, pure_ok, Except.ok.injEq] at h
    exact Or.inl h.symm
  · cases hk : s.kernelMode <;> rw [hk] at h
    · simp only [Bool.not_false, eq_self_iff_true, if_true] at h
      rw [bind_ok_iff] at h
      obtain ⟨s3, hp, h⟩ := h
      simp only [pure_ok, Except.ok.injEq] at h
      obtain ⟨ht, hc, hkm, hen⟩ := pushRegistersOnStack_core hp
      rw [← h]
      exact Or.inr ⟨hkm, hen, ht, hc, rfl⟩
    · simp only [Bool.not_true, Bool.false_eq_true, if_false, eq_self_iff_true, if_true,
        pure_ok, Except.ok.injEq] at h
      exact Or.inl h.symm

/-- Any successful `return_syscall` lands in (User, enabled) and
preserves the timer and the instruction counter. -/
theorem return_syscall_ok_flags {s t : Machine} (h : return_syscall s = .ok t) :
    t.kernelMode = false ∧ t.interruptEnabledFlag = true
    ∧ t.interrupt_timer = s.interrupt_timer
    ∧ t.instruction_counter = s.instruction_counter := by
  unfold return_syscall at h
  rw [bind_ok_iff] at h
  obtain ⟨s1, hp, h⟩ := h
  simp only [pure_ok, Except.ok.injEq] at h
  obtain ⟨ht, hc, -, -⟩ := popRegistersOnStack_core hp
  rw [← h]
  exact ⟨rfl, rfl, ht, hc⟩

/-- The conclusion of `exec_core`: the timer and counter never change in
a single successful `executeInstruction`, and the flag pair is either
untouched, or set to (Kernel, disabled), or --- only by SYSRETURN --- set
to (User, enabled). -/
def ExecCore (s t : Machine) : Prop :=
  t.interrupt_timer = s.interrupt_timer
  ∧ t.instruction_counter = s.instruction_counter
  ∧ ((t.kernelMode = s.kernelMode ∧ t.interruptEnabledFlag = s.interruptEnabledFlag)
    ∨ (t.kernelMode = true ∧ t.interruptEnabledFlag = false)
    ∨ (decode s.ir = Instr.SYSRETURN ∧ t.kernelMode = false ∧ t.interruptEnabledFlag = true))

theorem ExecCore.of_coreEq {s t : Machine} (h : CoreEq s t) : ExecCore s t := by
  obtain ⟨ht, hc, hk, he⟩ := h
  exact ⟨ht, hc, Or.inl ⟨hk, he⟩⟩

theorem exec_core {s t : Machine} (h : executeInstruction s = .ok t) :
    ExecCore s t := by
  unfold executeInstruction at h
  cases hd : decode s.ir <;> rw [hd] at h
  case LOAD_VAL =>
    rw [bind_ok_iff] at h
    obtain ⟨⟨v, s1⟩, hf, h⟩ := h
    simp only [pure_ok, Except.ok.injEq] at h
    rw [← h]
    exact ExecCore.of_coreEq ((fetchOperand_core hf).trans ⟨rfl, rfl, rfl, rfl⟩)
  case LOAD_ADDR =>
    simp only [bind_ok_iff] at h
    obtain ⟨⟨a, s1⟩, hf, ⟨v, s2⟩, hr, h⟩ := h
    simp only [pure_ok, Except.ok.injEq] at h
    rw [← h]
    exact ExecCore.of_coreEq (((fetchOperand_core hf).trans (readMemory_core hr)).trans
      ⟨rfl, rfl, rfl, rfl⟩)
  case LOAD_IND_ADDR =>
    simp only [bind_ok_iff] at h
    obtain ⟨⟨a, s1⟩, hf, ⟨b, s2⟩, hr1, ⟨v, s3⟩, hr2, h⟩ := h
    simp only [pure_ok, Except.ok.injEq] at h
    rw [← h]
    exact ExecCore.of_coreEq ((((fetchOperand_core hf).trans
      (readMemory_core hr1)).trans (readMemory_core hr2)).trans ⟨rfl, rfl, rfl, rfl⟩)
  case LOAD_IDX_X_ADDR =>
    simp only [bind_ok_iff] at h
    obtain ⟨⟨a, s1⟩, hf, ⟨v, s2⟩, hr, h⟩ := h
    simp only [pure_ok, Except.ok.injEq] at h
    rw [← h]
    exact ExecCore.of_coreEq (((fetchOperand_core hf).trans (readMemory_core hr)).trans
      ⟨rfl, rfl, rfl, rfl⟩)
  case LOAD_IDX_Y_ADDR =>
    simp only [bind_ok_iff] at h
    obtain ⟨⟨a, s1⟩, hf, ⟨v, s2⟩, hr, h⟩ := h
    simp only [pure_ok, Except.ok.injEq] at h
    rw [← h]
    exact ExecCore.of_coreEq (((fetchOperand_core hf).trans (readMemory_core hr)).trans
      ⟨rfl, rfl, rfl, rfl⟩)
  case LOAD_SPX =>
    simp only [bind_ok_iff] at h
    obtain ⟨⟨v, s1⟩, hr, h⟩ := h
    simp only [pure_ok, Except.ok.injEq] at h
    rw [← h]
    exact ExecCore.of_coreEq ((readMemory_core hr).trans ⟨rfl, rfl, rfl, rfl⟩)
  case STORE =>
    simp only [bind_ok_iff] at h
    obtain ⟨⟨a, s1⟩, hf, hw⟩ := h
    exact ExecCore.of_coreEq ((fetchOperand_core hf).trans (writeMemory_core hw))
  case GET =>
    simp only [pure_ok, Except.ok.injEq] at h
    rw [← h]
    exact ExecCore.of_coreEq ⟨rfl, rfl, rfl, rfl⟩
  case PUT =>
    simp only [bind_ok_iff] at h
    obtain ⟨⟨port, s1⟩, hf, h⟩ := h
    have hcore := fetchOperand_core hf
    split_ifs at h
    · simp only [pure_ok, Except.ok.injEq] at h
      rw [← h]
      exact ExecCore.of_coreEq (hcore.trans ⟨rfl, rfl, rfl, rfl⟩)
    · simp only [pure_ok, Except.ok.injEq] at h
      rw [← h]
      exact ExecCore.of_coreEq (hcore.trans ⟨rfl, rfl, rfl, rfl⟩)
    · exact absurd h endProcess_not_ok
  case ADDX =>
    simp only [pure_ok, Except.ok.injEq] at h
    rw [← h] ; exact ExecCore.of_coreEq ⟨rfl, rfl, rfl, rfl⟩
  case ADDY =>
    simp only [pure_ok, Except.ok.injEq] at h
    rw [← h] ; exact ExecCore.of_coreEq ⟨rfl, rfl, rfl, rfl⟩
  case SUBX =>
    simp only [pure_ok, Except.ok.injEq] at h
    rw [← h] ; exact ExecCore.of_coreEq ⟨rfl, rfl, rfl, rfl⟩
  case SUBY =>
    simp only [pure_ok, Except.ok.injEq] at h
    rw [← h] ; exact ExecCore.of_coreEq ⟨rfl, rfl, rfl, rfl⟩
  case COPY_TO_X =>
    simp only [pure_ok, Except.ok.injEq] at h
    rw [← h] ; exact ExecCore.of_coreEq ⟨rfl, rfl, rfl, rfl⟩
  case COPY_FR_X =>
    simp only [pure_ok, Except.ok.injEq] at h
    rw [← h] ; exact ExecCore.of_coreEq ⟨rfl, rfl, rfl, rfl⟩
  case COPY_TO_Y =>
    simp only [pure_ok, Except.ok.injEq] at h
    rw [← h] ; exact ExecCore.of_coreEq ⟨rfl, rfl, rfl, rfl⟩
  case COPY_FR_Y =>
    simp only [pure_ok, Except.ok.injEq] at h
    rw [← h] ; exact ExecCore.of_coreEq ⟨rfl, rfl, rfl, rfl⟩
  case COPY_TO_SP =>
    simp only [pure_ok, Except.ok.injEq] at h
    rw [← h] ; exact ExecCore.of_coreEq ⟨rfl, rfl, rfl, rfl⟩
  case COPY_FR_SP =>
    simp only [pure_ok, Except.ok.injEq] at h
    rw [← h] ; exact ExecCore.of_coreEq ⟨rfl, rfl, rfl, rfl⟩
  case JUMP =>
    simp only [bind_ok_iff] at h
    obtain ⟨⟨v, s1⟩, hr, h⟩ := h
    simp only [pure_ok, Except.ok.injEq] at h
    rw [← h]
    exact ExecCore.of_coreEq ((readMemory_core hr).trans ⟨rfl, rfl, rfl, rfl⟩)
  case JUMP_IF_EQ =>
    simp only [bind_ok_iff] at h
    obtain ⟨⟨v, s1⟩, hf, h⟩ := h
    have hcore := fetchOperand_core hf
    split_ifs at h <;> simp only [pure_ok, Except.ok.injEq] at h <;> rw [← h]
    · exact ExecCore.of_coreEq (hcore.trans ⟨rfl, rfl, rfl, rfl⟩)
    · exact ExecCore.of_coreEq hcore
  case JUMP_IF_NEQ =>
    simp only [bind_ok_iff] at h
    obtain ⟨⟨v, s1⟩, hf, h⟩ := h
    have hcore := fetchOperand_core hf
    split_ifs at h <;> simp only [pure_ok, Except.ok.injEq] at h <;> rw [← h]
    · exact ExecCore.of_coreEq (hcore.trans ⟨rfl, rfl, rfl, rfl⟩)
    · exact ExecCore.of_coreEq hcore
  case JUMP_RETURN =>
    simp only [bind_ok_iff] at h
    obtain ⟨s1, hp, ⟨v, s2⟩, hr, h⟩ := h
    simp only [pure_ok, Except.ok.injEq] at h
    rw [← h]
    exact ExecCore.of_coreEq (((pushStack_core hp).trans (readMemory_core hr)).trans
      ⟨rfl, rfl, rfl, rfl⟩)
  case RETURN =>
    simp only [bind_ok_iff] at h
    obtain ⟨⟨v, s1⟩, hp, h⟩ := h
    simp only [pure_ok, Except.ok.injEq] at h
    rw [← h]
    exact ExecCore.of_coreEq ((popStack_core hp).trans ⟨rfl, rfl, rfl, rfl⟩)
  case INCX =>
    simp only [pure_ok, Except.ok.injEq] at h
    rw [← h] ; exact ExecCore.of_coreEq ⟨rfl, rfl, rfl, rfl⟩
  case DECX =>
    simp only [pure_ok, Except.ok.injEq] at h
    rw [← h] ; exact ExecCore.of_coreEq ⟨rfl, rfl, rfl, rfl⟩
  case PUSH =>
    exact ExecCore.of_coreEq (pushStack_core h)
  case POP =>
    simp only [bind_ok_iff] at h
    obtain ⟨⟨v, s1⟩, hp, h⟩ := h
    simp only [pure_ok, Except.ok.injEq] at h
    rw [← h]
    exact ExecCore.of_coreEq ((popStack_core hp).trans ⟨rfl, rfl, rfl, rfl⟩)
  case SYSCALL =>
    rcases syscall_ok_flags h with heq | ⟨hk, he, ht, hc, -⟩
    · rw [heq] ; exact ExecCore.of_coreEq (CoreEq.refl s)
    · exact ⟨ht, hc, Or.inr (Or.inl ⟨hk, he⟩)⟩
  case SYSRETURN =>
    obtain ⟨hk, he, ht, hc⟩ := return_syscall_ok_flags h
    exact ⟨ht, hc, Or.inr (Or.inr ⟨hd, hk, he⟩)⟩
  case END =>
    exact absurd h endProcess_not_ok
  case INVALID =>
    exact absurd h endProcess_not_ok

theorem except_bind_ok_iff {α β : Type} (x : Except Exit α) (f : α → Except Exit β) (b : β) :
    x.bind f = .ok b ↔ ∃ a, x = .ok a ∧ f a = .ok b := by
  cases x <;> simp [Except.bind]

theorem checkInterrupt_ok_flags {s t : Machine} (h : checkInterrupt s = .ok t) :
    t = s ∨ (t.kernelMode = true ∧ t.interruptEnabledFlag = false
      ∧ t.interrupt_timer = s.interrupt_timer
      ∧ t.instruction_counter = s.instruction_counter) := by
  unfold checkInterrupt at h
  split_ifs at h
  · rcases syscall_ok_flags h with heq | ⟨hk, he, ht, hc, -⟩
    · exact Or.inl heq
    · exact Or.inr ⟨hk, he, ht, hc⟩
  · simp only [pure_ok, Except.ok.injEq] at h
    exact Or.inl h.symm

/-- One successful execution cycle keeps the flag pair valid, keeps the
timer, and increments the instruction counter by exactly one. -/
theorem cycleStep_flags_count {s t : Machine} (h : cycleStep s = .ok t)
    (hf : s.interruptEnabledFlag = !s.kernelMode) :
    t.interruptEnabledFlag = !t.kernelMode
    ∧ t.interrupt_timer = s.interrupt_timer
    ∧ t.instruction_counter = s.instruction_counter + 1 := by
  unfold cycleStep at h
  simp only [bind_ok_iff] at h
  obtain ⟨s1, hfe, s3, hexec, hchk⟩ := h
  obtain ⟨t1, c1, k1, e1⟩ := fetchInstruction_core hfe
  obtain ⟨t3, c3, hcase⟩ := exec_core hexec
  have hflags3 : s3.interruptEnabledFlag = !s3.kernelMode := by
    rcases hcase with ⟨hk3, he3⟩ | ⟨hk3, he3⟩ | ⟨-, hk3, he3⟩
    · rw [hk3, he3]
      show s1.interruptEnabledFlag = !s1.kernelMode
      rw [k1, e1, hf]
    · rw [hk3, he3] ; rfl
    · rw [hk3, he3] ; rfl
  have ht3 : s3.interrupt_timer = s.interrupt_timer := t3.trans t1
  have hc3 : s3.instruction_counter = s.instruction_counter := c3.trans c1
  rcases checkInterrupt_ok_flags hchk with heq | ⟨hk, he, ht, hc⟩
  · rw [heq]
    refine ⟨hflags3, ht3, ?_⟩
    show s3.instruction_counter + 1 = s.instruction_counter + 1
    rw [hc3]
  · refine ⟨by rw [hk, he] ; rfl, ?_, ?_⟩
    · exact ht.trans ht3
    · rw [hc]
      show s3.instruction_counter + 1 = s.instruction_counter + 1
      rw [hc3]

/-- Over any number of successful cycles the flag pair stays valid, the
timer never changes, and the counter advances by the number of completed
instructions. -/
theorem run_flags_count (n : Nat) : ∀ s t : Machine,
    run_execution_cycle n s = .ok t → s.interruptEnabledFlag = !s.kernelMode →
    (t.interruptEnabledFlag = !t.kernelMode
     ∧ t.interrupt_timer = s.interrupt_timer
     ∧ t.instruction_counter = s.instruction_counter + (n : Int)) := by
  induction n with
  | zero =>
    intro s t h hf
    unfold run_execution_cycle at h
    simp only [Except.ok.injEq] at h
    rw [← h]
    exact ⟨hf, rfl, by omega⟩
  | succ n ih =>
    intro s t h hf
    unfold run_execution_cycle at h
    rw [except_bind_ok_iff] at h
    obtain ⟨u, hstep, hrun⟩ := h
    obtain ⟨hfu, htu, hcu⟩ := cycleStep_flags_count hstep hf
    obtain ⟨hft, htt, hct⟩ := ih u t hrun hfu
    refine ⟨hft, htt.trans htu, ?_⟩
    rw [hct, hcu]
    push_cast
    ring

/-! ## Shared concrete data for witnesses and counterexamples -/

/-- The §8 end-to-end scenario program `[1,5,7,10,2,10,9,1,50]` loaded at
address 0, all other cells zero. -/
def scenarioMemory : Int → Int := fun a =>
  if a = 0 then 1 else if a = 1 then 5 else if a = 2 then 7 else if a = 3 then 10
  else if a = 4 then 2 else if a = 5 then 10 else if a = 6 then 9 else if a = 7 then 1
  else if a = 8 then 50 else 0

/-- A fixed oracle for the `rand()` stream (never consumed in the
scenarios considered). -/
def zeroStream : Nat → Int := fun _ => 0

/-! ## Interrupt and mode-switch theorems -/

/-- C9: in every machine state reachable from the initial processor
state by any number of executed instructions, the pair
(kernelMode, interruptEnabledFlag) is (false, true) or (true, false):
only `syscall` and `return_syscall` touch the two flags and each sets
both together. -/
theorem reachable_mode_flag_pairs (mem : Int → Int) (timer : Int) (r : Nat → Int)
    (n : Nat) (s : Machine)
    (h : run_execution_cycle n (initMachine mem timer r) = .ok s) :
    (s.kernelMode = false ∧ s.interruptEnabledFlag = true)
    ∨ (s.kernelMode = true ∧ s.interruptEnabledFlag = false) := by
  have hf := (run_flags_count n (initMachine mem timer r) s h rfl).1
  cases hk : s.kernelMode
  · exact Or.inl ⟨rfl, by rw [hf, hk] ; rfl⟩
  · exact Or.inr ⟨rfl, by rw [hf, hk] ; rfl⟩

/-- Witness for C9: the initial state itself (zero cycles) is one of the
two permitted flag pairs. -/
theorem reachable_mode_flag_pairs_witness :
    run_execution_cycle 0 (initMachine scenarioMemory 1 zeroStream)
      = .ok (initMachine scenarioMemory 1 zeroStream)
    ∧ (((initMachine scenarioMemory 1 zeroStream).kernelMode = false
        ∧ (initMachine scenarioMemory 1 zeroStream).interruptEnabledFlag = true)
      ∨ ((initMachine scenarioMemory 1 zeroStream).kernelMode = true
        ∧ (initMachine scenarioMemory 1 zeroStream).interruptEnabledFlag = false)) :=
  ⟨rfl, reachable_mode_flag_pairs scenarioMemory 1 zeroStream 0
    (initMachine scenarioMemory 1 zeroStream) rfl⟩

/-- C4: the timer-interrupt discipline.  (i) In kernel mode the timer
check never changes the machine (the interrupt is silently dropped, even
when further multiples of the timer are crossed), so it cannot fire
again until SYSRETURN returns to (User, enabled).  (ii) In (User,
enabled) the check is a no-op unless the instruction counter is
divisible by the timer, in which case it invokes `syscall SYS_INDEX`
(handler address 1000) and any successful switch lands in kernel mode
with interrupts disabled and `PC = 1000`.  (iii) No instruction other
than SYSRETURN leaves kernel mode.  (iv) After `n` completed cycles the
counter is exactly `n`, so the check after each instruction sees the
positive count of completed instructions. -/
theorem timer_interrupt_discipline (s : Machine) (hN : 0 < s.interrupt_timer) :
    (s.kernelMode = true → checkInterrupt s = .ok s)
    ∧ (s.kernelMode = false → s.interruptEnabledFlag = true →
        ((s.instruction_counter % s.interrupt_timer ≠ 0 → checkInterrupt s = .ok s)
         ∧ (s.instruction_counter % s.interrupt_timer = 0 →
             checkInterrupt s = syscall SYS_INDEX s
             ∧ ∀ t, syscall SYS_INDEX s = .ok t →
                 t.kernelMode = true ∧ t.interruptEnabledFlag = false ∧ t.pc = SYS_INDEX)))
    ∧ (∀ t, s.kernelMode = true → executeInstruction s = .ok t →
        decode s.ir ≠ Instr.SYSRETURN → t.kernelMode = true)
    ∧ (∀ (mem : Int → Int) (timer : Int) (r : Nat → Int) (n : Nat) (t : Machine),
        run_execution_cycle n (initMachine mem timer r) = .ok t →
        t.instruction_counter = (n : Int)) := by
  refine ⟨?_, ?_, ?_, ?_⟩
  · intro hk
    unfold checkInterrupt
    split_ifs
    · exact syscall_drop_kernel hk
    · rfl
  · intro hk he
    constructor
    · intro hmod
      unfold checkInterrupt
      rw [if_neg hmod]
      rfl
    · intro hmod
      refine ⟨by unfold checkInterrupt ; rw [if_pos hmod], ?_⟩
      intro t ht
      rw [syscall_fires_eq he hk] at ht
      cases hp : pushRegistersOnStack
          { s with kernelMode := true, interruptEnabledFlag := false,
                   inactive_proc_stack := s.sp, sp := s.inactive_sys_stack } <;>
        rw [hp] at ht
      · cases ht
      case ok s3 =>
        simp only [Except.map, Except.ok.injEq] at ht
        obtain ⟨-, -, hk3, he3⟩ := pushRegistersOnStack_core hp
        rw [← ht]
        exact ⟨hk3, he3, rfl⟩
  · intro t hk hex hni
    obtain ⟨-, -, hcase⟩ := exec_core hex
    rcases hcase with ⟨hk3, -⟩ | ⟨hk3, -⟩ | ⟨hsys, -, -⟩
    · exact hk3.trans hk
    · exact hk3
    · exact absurd hsys hni
  · intro mem timer r n t h
    have := (run_flags_count n (initMachine mem timer r) t h rfl).2.2
    rw [this]
    show (0 : Int) + (n : Int) = (n : Int)
    ring

/-- Witness for C4: the initial state with timer 3 (positive), in (User,
enabled) with counter 0. -/
theorem timer_interrupt_discipline_witness :
    0 < (initMachine scenarioMemory 3 zeroStream).interrupt_timer
    ∧ ((initMachine scenarioMemory 3 zeroStream).kernelMode = true →
        checkInterrupt (initMachine scenarioMemory 3 zeroStream)
          = .ok (initMachine scenarioMemory 3 zeroStream)) :=
  ⟨by decide, (timer_interrupt_discipline (initMachine scenarioMemory 3 zeroStream)
    (by decide)).1⟩

/-- Modelled from the spec: the §4.5 `TriggerInterrupt` transition with
its steps in the order the spec lists them --- save SP into the user
shadow, load SP from the kernel shadow, call `PushFrame()` (whose stores
go through Access Control in the mode the machine is in at that moment),
then set `mode = Kernel` and `interruptsEnabled = false`, then set `PC`.
Used only to compare against the source's `syscall`, which toggles the
flags first. -/
def triggerInterruptSpecOrder (address : Int) (s : Machine) : Except Exit Machine :=
  if s.interruptEnabledFlag = true ∧ s.kernelMode = false then do
    let s1 := { s with inactive_proc_stack := s.sp, sp := s.inactive_sys_stack }
    let s2 ← pushRegistersOnStack s1
    pure { s2 with kernelMode := true, interruptEnabledFlag := false, pc := address }
  else pure s

/-- Counterexample to C3 as stated: from the initial state (User,
enabled), performing the five claimed steps in the claimed order is
observably different from the source's `syscall`: the claimed order
pushes the frame while still in User mode, so its first store to the
kernel stack (address 1999) is fatal with KERNEL_MEM_ACCESS_DENIED,
whereas the source's `syscall` succeeds. -/
theorem syscall_order_observable :
    triggerInterruptSpecOrder INT_INDEX (initMachine scenarioMemory 10 zeroStream)
      = .error ⟨KERNEL_MEM_ACCESS_DENIED, []⟩
    ∧ (syscall INT_INDEX (initMachine scenarioMemory 10 zeroStream)).toOption.isSome
      = true :=
  ⟨rfl, rfl⟩

/-- C3 (amended): when `TriggerInterrupt(handlerAddress)` is invoked in
(mode = User, interruptsEnabled = true), the machine first sets
`mode = Kernel` and `interruptsEnabled = false` and swaps the stack
pointers (current SP saved to the user shadow, SP loaded from the kernel
shadow), then calls `PushFrame()` --- whose five stores each go through
the Access Control + Request Channel path, now in Kernel mode --- and
finally sets `PC = handlerAddress`. -/
theorem syscall_flags_before_frame_push (a : Int) (s : Machine)
    (he : s.interruptEnabledFlag = true) (hk : s.kernelMode = false) :
    syscall a s =
      (pushRegistersOnStack
        { s with kernelMode := true, interruptEnabledFlag := false,
                 inactive_proc_stack := s.sp, sp := s.inactive_sys_stack }).map
        (fun t => { t with pc := a }) :=
  syscall_fires_eq he hk

/-- Witness for C3 (amended): the initial machine state. -/
theorem syscall_flags_before_frame_push_witness :
    (initMachine scenarioMemory 10 zeroStream).interruptEnabledFlag = true
    ∧ (initMachine scenarioMemory 10 zeroStream).kernelMode = false
    ∧ syscall INT_INDEX (initMachine scenarioMemory 10 zeroStream) =
      (pushRegistersOnStack
        { initMachine scenarioMemory 10 zeroStream with
            kernelMode := true, interruptEnabledFlag := false,
            inactive_proc_stack := (initMachine scenarioMemory 10 zeroStream).sp,
            sp := (initMachine scenarioMemory 10 zeroStream).inactive_sys_stack }).map
        (fun t => { t with pc := INT_INDEX }) :=
  ⟨rfl, rfl,
    syscall_flags_before_frame_push INT_INDEX (initMachine scenarioMemory 10 zeroStream)
      rfl rfl⟩

/-- Looking up each of the five frame slots in the pushed-frame memory
returns the value written there. -/
theorem update5_lookup (f : Int → Int) (b v1 v2 v3 v4 v5 : Int) :
    (Function.update (Function.update (Function.update (Function.update
      (Function.update f (b - 1) v1) (b - 2) v2) (b - 3) v3) (b - 4) v4) (b - 5) v5) (b - 1) = v1
    ∧ (Function.update (Function.update (Function.update (Function.update
      (Function.update f (b - 1) v1) (b - 2) v2) (b - 3) v3) (b - 4) v4) (b - 5) v5) (b - 2) = v2
    ∧ (Function.update (Function.update (Function.update (Function.update
      (Function.update f (b - 1) v1) (b - 2) v2) (b - 3) v3) (b - 4) v4) (b - 5) v5) (b - 3) = v3
    ∧ (Function.update (Function.update (Function.update (Function.update
      (Function.update f (b - 1) v1) (b - 2) v2) (b - 3) v3) (b - 4) v4) (b - 5) v5) (b - 4) = v4
    ∧ (Function.update (Function.update (Function.update (Function.update
      (Function.update f (b - 1) v1) (b - 2) v2) (b - 3) v3) (b - 4) v4) (b - 5) v5) (b - 5) = v5 := by
  refine ⟨?_, ?_, ?_, ?_, ?_⟩ <;>
    simp [Function.update_noteq, Function.update_same, Function.update_apply]

/-- C7: a `PushFrame(); PopFrame()` pair, from any state in which the
five frame stores (and hence the five frame loads, at the same
addresses) are permitted, restores PC, IR, AC, X and Y to their pre-call
values and returns SP to its pre-call value. -/
theorem push_pop_frame_roundtrip (s : Machine)
    (h1 : verifyAccess (s.sp - 1) s.kernelMode = .ok)
    (h2 : verifyAccess (s.sp - 2) s.kernelMode = .ok)
    (h3 : verifyAccess (s.sp - 3) s.kernelMode = .ok)
    (h4 : verifyAccess (s.sp - 4) s.kernelMode = .ok)
    (h5 : verifyAccess (s.sp - 5) s.kernelMode = .ok) :
    ∃ t u, pushRegistersOnStack s = .ok t ∧ popRegistersOnStack t = .ok u
      ∧ u.pc = s.pc ∧ u.ir = s.ir ∧ u.ac = s.ac ∧ u.x = s.x ∧ u.y = s.y
      ∧ u.sp = s.sp := by
  have hp : pushRegistersOnStack s = .ok
      { s with sp := s.sp - 5,
               mem := Function.update (Function.update (Function.update (Function.update
                 (Function.update s.mem (s.sp - 1) s.pc) (s.sp - 2) s.ir) (s.sp - 3) s.ac)
                 (s.sp - 4) s.x) (s.sp - 5) s.y } := by
    simp [pushRegistersOnStack, writeMemory_ok_of_verify, ok_bind, pure_ok,
      h1, h2, h3, h4, h5]
  have e4 : s.sp - 5 + 4 = s.sp - 1 := by ring
  have e3 : s.sp - 5 + 3 = s.sp - 2 := by ring
  have e2 : s.sp - 5 + 2 = s.sp - 3 := by ring
  have e1 : s.sp - 5 + 1 = s.sp - 4 := by ring
  have e0 : s.sp - 5 + 0 = s.sp - 5 := by ring
  obtain ⟨l1, l2, l3, l4, l5⟩ := update5_lookup s.mem s.sp s.pc s.ir s.ac s.x s.y
  have h4v : verifyAccess (s.sp - 5 + 4) s.kernelMode = .ok := by rw [e4] ; exact h1
  have h3v : verifyAccess (s.sp - 5 + 3) s.kernelMode = .ok := by rw [e3] ; exact h2
  have h2v : verifyAccess (s.sp - 5 + 2) s.kernelMode = .ok := by rw [e2] ; exact h3
  have h1v : verifyAccess (s.sp - 5 + 1) s.kernelMode = .ok := by rw [e1] ; exact h4
  have h0v : verifyAccess (s.sp - 5 + 0) s.kernelMode = .ok := by rw [e0] ; exact h5
  have l4v : (Function.update (Function.update (Function.update (Function.update
      (Function.update s.mem (s.sp - 1) s.pc) (s.sp - 2) s.ir) (s.sp - 3) s.ac)
      (s.sp - 4) s.x) (s.sp - 5) s.y) (s.sp - 5 + 4) = s.pc := by rw [e4] ; exact l1
  have l3v : (Function.update (Function.update (Function.update (Function.update
      (Function.update s.mem (s.sp - 1) s.pc) (s.sp - 2) s.ir) (s.sp - 3) s.ac)
      (s.sp - 4) s.x) (s.sp - 5) s.y) (s.sp - 5 + 3) = s.ir := by rw [e3] ; exact l2
  have l2v : (Function.update (Function.update (Function.update (Function.update
      (Function.update s.mem (s.sp - 1) s.pc) (s.sp - 2) s.ir) (s.sp - 3) s.ac)
      (s.sp - 4) s.x) (s.sp - 5) s.y) (s.sp - 5 + 2) = s.ac := by rw [e2] ; exact l3
  have l1v : (Function.update (Function.update (Function.update (Function.update
      (Function.update s.mem (s.sp - 1) s.pc) (s.sp - 2) s.ir) (s.sp - 3) s.ac)
      (s.sp - 4) s.x) (s.sp - 5) s.y) (s.sp - 5 + 1) = s.x := by rw [e1] ; exact l4
  have l0v : (Function.update (Function.update (Function.update (Function.update
      (Function.update s.mem (s.sp - 1) s.pc) (s.sp - 2) s.ir) (s.sp - 3) s.ac)
      (s.sp - 4) s.x) (s.sp - 5) s.y) (s.sp - 5 + 0) = s.y := by rw [e0] ; exact l5
  have hq : popRegistersOnStack
      { s with sp := s.sp - 5,
               mem := Function.update (Function.update (Function.update (Function.update
                 (Function.update s.mem (s.sp - 1) s.pc) (s.sp - 2) s.ir) (s.sp - 3) s.ac)
                 (s.sp - 4) s.x) (s.sp - 5) s.y } = .ok
      { s with sp := s.sp - 5 + 5,
               mem := Function.update (Function.update (Function.update (Function.update
                 (Function.update s.mem (s.sp - 1) s.pc) (s.sp - 2) s.ir) (s.sp - 3) s.ac)
                 (s.sp - 4) s.x) (s.sp - 5) s.y } := by
    simp only [popRegistersOnStack, readMemory_ok_of_verify, ok_bind, pure_ok,
      h4v, h3v, h2v, h1v, h0v, l4v, l3v, l2v, l1v, l0v]
  refine ⟨_, _, hp, hq, rfl, rfl, rfl, rfl, rfl, ?_⟩
  show s.sp - 5 + 5 = s.sp
  omega

/-- A concrete kernel-mode state with SP at the top of the kernel stack,
used to witness the frame round trip. -/
def frameState : Machine :=
  { initMachine scenarioMemory 10 zeroStream with
      kernelMode := true, interruptEnabledFlag := false, sp := MEMORY_SIZE,
      pc := 11, ir := 12, ac := 13, x := 14, y := 15 }

/-- Witness for C7: the frame round trip at the top of the kernel stack. -/
theorem push_pop_frame_roundtrip_witness :
    verifyAccess (frameState.sp - 1) frameState.kernelMode = .ok
    ∧ verifyAccess (frameState.sp - 2) frameState.kernelMode = .ok
    ∧ verifyAccess (frameState.sp - 3) frameState.kernelMode = .ok
    ∧ verifyAccess (frameState.sp - 4) frameState.kernelMode = .ok
    ∧ verifyAccess (frameState.sp - 5) frameState.kernelMode = .ok
    ∧ ∃ t u, pushRegistersOnStack frameState = .ok t ∧ popRegistersOnStack t = .ok u
      ∧ u.pc = frameState.pc ∧ u.ir = frameState.ir ∧ u.ac = frameState.ac
      ∧ u.x = frameState.x ∧ u.y = frameState.y ∧ u.sp = frameState.sp :=
  ⟨by decide, by decide, by decide, by decide, by decide,
    push_pop_frame_roundtrip frameState (by decide) (by decide) (by decide)
      (by decide) (by decide)⟩

/-! ## The §8 end-to-end scenario -/

/-- Machine state after LOAD_VAL 5 (cycle 1 of the scenario). -/
def scenarioM1 (mem : Int → Int) (N : Int) (r : Nat → Int) : Machine :=
  ⟨2, 1, 5, 0, 0, 1000, 2000, 1000, N, 1, true, false, mem, [], r, 0⟩

/-- Machine state after STORE 10 (cycle 2 of the scenario). -/
def scenarioM2 (mem : Int → Int) (N : Int) (r : Nat → Int) : Machine :=
  ⟨4, 7, 5, 0, 0, 1000, 2000, 1000, N, 2, true, false, Function.update mem 10 5, [], r, 0⟩

/-- Machine state after LOAD_ADDR 10 (cycle 3 of the scenario). -/
def scenarioM3 (mem : Int → Int) (N : Int) (r : Nat → Int) : Machine :=
  ⟨6, 2, 5, 0, 0, 1000, 2000, 1000, N, 3, true, false, Function.update mem 10 5, [], r, 0⟩

/-- Machine state after PUT port 1 (cycle 4 of the scenario). -/
def scenarioM4 (mem : Int → Int) (N : Int) (r : Nat → Int) : Machine :=
  ⟨8, 9, 5, 0, 0, 1000, 2000, 1000, N, 4, true, false, Function.update mem 10 5,
    [OutEvent.num 5], r, 0⟩

theorem run_step_ok {j : Nat} {s t : Machine} (h : cycleStep s = .ok t) :
    run_execution_cycle (j + 1) s = run_execution_cycle j t := by
  show (cycleStep s).bind (run_execution_cycle j) = _
  rw [h]
  rfl

theorem run_step_error {j : Nat} {s : Machine} {e : Exit} (h : cycleStep s = .error e) :
    run_execution_cycle (j + 1) s = .error e := by
  show (cycleStep s).bind (run_execution_cycle j) = _
  rw [h]
  rfl

/-- Counterexample to C8 as stated: the scenario claim is silent about
the configured timer, but with timer value 1 the very first instruction
triggers the timer interrupt, the machine jumps to the (empty) handler
at 1000, fetches opcode 0 and dies with INVALID_OPCODE having printed
nothing --- not the claimed SUCCESS exit printing `5`. -/
theorem scenario_timer_one_fails :
    run_execution_cycle 2 (initMachine scenarioMemory 1 zeroStream)
      = .error ⟨INVALID_OPCODE, []⟩ := rfl

/-- C8 (amended): starting from (mode = User, PC = 0) with cells 0..8
holding `[1,5,7,10,2,10,9,1,50]`, all other cells arbitrary, and a
configured timer value greater than 4 (so that no timer interrupt fires
during the five instructions), the machine executes LOAD_VAL 5
(AC becomes 5), STORE 10 (cell 10 becomes 5), LOAD_ADDR 10 (AC stays 5),
PUT port 1 (prints 5 as a number), then END, and the process exits with
SUCCESS. -/
theorem end_to_end_scenario (mem : Int → Int) (N : Int) (r : Nat → Int)
    (hN : 4 < N)
    (h0 : mem 0 = 1) (h1 : mem 1 = 5) (h2 : mem 2 = 7) (h3 : mem 3 = 10)
    (h4 : mem 4 = 2) (h5 : mem 5 = 10) (h6 : mem 6 = 9) (h7 : mem 7 = 1)
    (h8 : mem 8 = 50) :
    (run_execution_cycle 1 (initMachine mem N r)).toOption.map Machine.ac = some 5
    ∧ (run_execution_cycle 2 (initMachine mem N r)).toOption.map (fun s => s.mem 10)
        = some 5
    ∧ (run_execution_cycle 3 (initMachine mem N r)).toOption.map Machine.ac = some 5
    ∧ (run_execution_cycle 4 (initMachine mem N r)).toOption.map Machine.output
        = some [OutEvent.num 5]
    ∧ ∀ k : Nat, run_execution_cycle (k + 5) (initMachine mem N r)
        = .error ⟨SUCCESS, [OutEvent.num 5]⟩ := by
  have m1 : ¬ (N ∣ (1 : Int)) := fun hd => absurd (Int.le_of_dvd (by omega) hd) (by omega)
  have m2 : ¬ (N ∣ (2 : Int)) := fun hd => absurd (Int.le_of_dvd (by omega) hd) (by omega)
  have m3 : ¬ (N ∣ (3 : Int)) := fun hd => absurd (Int.le_of_dvd (by omega) hd) (by omega)
  have m4 : ¬ (N ∣ (4 : Int)) := fun hd => absurd (Int.le_of_dvd (by omega) hd) (by omega)
  have st1 : cycleStep (initMachine mem N r) = .ok (scenarioM1 mem N r) := by
    simp [cycleStep, fetchInstruction, fetchOperand, executeInstruction, decode,
      checkInterrupt, readMemory_ok_of_verify, writeMemory_ok_of_verify, ok_bind,
      pure_ok, verifyAccess, MEMORY_SIZE, SYS_INDEX, initMachine, scenarioM1,
      h0, h1, m1]
  have st2 : cycleStep (scenarioM1 mem N r) = .ok (scenarioM2 mem N r) := by
    simp [cycleStep, fetchInstruction, fetchOperand, executeInstruction, decode,
      checkInterrupt, readMemory_ok_of_verify, writeMemory_ok_of_verify, ok_bind,
      pure_ok, verifyAccess, MEMORY_SIZE, SYS_INDEX, scenarioM1, scenarioM2,
      h2, h3, m2]
  have st3 : cycleStep (scenarioM2 mem N r) = .ok (scenarioM3 mem N r) := by
    simp [cycleStep, fetchInstruction, fetchOperand, executeInstruction, decode,
      checkInterrupt, readMemory_ok_of_verify, writeMemory_ok_of_verify, ok_bind,
      pure_ok, verifyAccess, MEMORY_SIZE, SYS_INDEX, scenarioM2, scenarioM3,
      Function.update_apply, h4, h5, m3]
  have st4 : cycleStep (scenarioM3 mem N r) = .ok (scenarioM4 mem N r) := by
    simp [cycleStep, fetchInstruction, fetchOperand, executeInstruction, decode,
      checkInterrupt, readMemory_ok_of_verify, writeMemory_ok_of_verify, ok_bind,
      pure_ok, verifyAccess, MEMORY_SIZE, SYS_INDEX, scenarioM3, scenarioM4,
      Function.update_apply, h6, h7, m4]
  have st5 : cycleStep (scenarioM4 mem N r) = .error ⟨SUCCESS, [OutEvent.num 5]⟩ := by
    simp [cycleStep, fetchInstruction, fetchOperand, executeInstruction, decode,
      checkInterrupt, readMemory_ok_of_verify, writeMemory_ok_of_verify, ok_bind,
      pure_ok, verifyAccess, MEMORY_SIZE, SYS_INDEX, scenarioM4, endProcess,
      error_bind, Function.update_apply, h8]
  refine ⟨?_, ?_, ?_, ?_, ?_⟩
  · rw [show (1 : Nat) = 0 + 1 from rfl, run_step_ok st1]
    rfl
  · rw [show (2 : Nat) = 1 + 1 from rfl, run_step_ok st1,
      show (1 : Nat) = 0 + 1 from rfl, run_step_ok st2]
    rfl
  · rw [show (3 : Nat) = 2 + 1 from rfl, run_step_ok st1,
      show (2 : Nat) = 1 + 1 from rfl, run_step_ok st2,
      show (1 : Nat) = 0 + 1 from rfl, run_step_ok st3]
    rfl
  · rw [show (4 : Nat) = 3 + 1 from rfl, run_step_ok st1,
      show (3 : Nat) = 2 + 1 from rfl, run_step_ok st2,
      show (2 : Nat) = 1 + 1 from rfl, run_step_ok st3,
      show (1 : Nat) = 0 + 1 from rfl, run_step_ok st4]
    rfl
  · intro k
    have e1 : run_execution_cycle (k + 5) (initMachine mem N r)
        = run_execution_cycle (k + 4) (scenarioM1 mem N r) := run_step_ok st1
    have e2 : run_execution_cycle (k + 4) (scenarioM1 mem N r)
        = run_execution_cycle (k + 3) (scenarioM2 mem N r) := run_step_ok st2
    have e3 : run_execution_cycle (k + 3) (scenarioM2 mem N r)
        = run_execution_cycle (k + 2) (scenarioM3 mem N r) := run_step_ok st3
    have e4 : run_execution_cycle (k + 2) (scenarioM3 mem N r)
        = run_execution_cycle (k + 1) (scenarioM4 mem N r) := run_step_ok st4
    have e5 : run_execution_cycle (k + 1) (scenarioM4 mem N r)
        = .error ⟨SUCCESS, [OutEvent.num 5]⟩ := run_step_error st5
    rw [e1, e2, e3, e4, e5]

/-- Witness for C8 (amended): the scenario program with timer 10. -/
theorem end_to_end_scenario_witness :
    (4 : Int) < 10
    ∧ ((run_execution_cycle 1 (initMachine scenarioMemory 10 zeroStream)).toOption.map
          Machine.ac = some 5
      ∧ (run_execution_cycle 2 (initMachine scenarioMemory 10 zeroStream)).toOption.map
          (fun s => s.mem 10) = some 5
      ∧ (run_execution_cycle 3 (initMachine scenarioMemory 10 zeroStream)).toOption.map
          Machine.ac = some 5
      ∧ (run_execution_cycle 4 (initMachine scenarioMemory 10 zeroStream)).toOption.map
          Machine.output = some [OutEvent.num 5]
      ∧ ∀ k : Nat, run_execution_cycle (k + 5) (initMachine scenarioMemory 10 zeroStream)
          = .error ⟨SUCCESS, [OutEvent.num 5]⟩) :=
  ⟨by decide,
    end_to_end_scenario scenarioMemory 10 zeroStream (by decide)
      rfl rfl rfl rfl rfl rfl rfl rfl rfl⟩

end SimOS
